import Mathlib

/-!
Shallow embedding of `src/iot_integration.js` (class `IoTIntegration`).

Modelling conventions:
* A fetched JSON document is a `TelemetryDoc` whose fields are all
  `Option`-valued: `none` stands for a field that is absent (JavaScript
  `undefined`) in the parsed object.
* The outcome of one retrieval attempt is a `FetchOutcome`: a network
  error, a non-ok HTTP response, a JSON parse failure, or a successfully
  parsed document.  `fetchIoTData` is the total function the `try/catch`
  in the source realises on these outcomes.
* JavaScript `NaN` arising from an invalid `Date` is modelled by
  `Option Int`: `none` is `NaN`, and the arithmetic and comparison
  helpers (`jsSub`, `jsFloorDiv`, `jsTMod`, `jsGt`, `jsNumToString`)
  propagate it exactly as IEEE `NaN` propagates through the expressions
  that actually occur in `getIoTStatus` (subtraction, `Math.floor` of a
  division, `%`, `>`, string interpolation).
* `Date` parsing and `toLocaleString` are external to the module, so
  `getIoTStatus` takes them as parameters `parse : String → Option Int`
  (milliseconds since epoch, `none` for an unparseable string) and
  `locale : Option Int → String`.
* Timers: `setInterval`/`clearInterval` act on an explicit `TimerEnv`
  holding the active interval timers; a timer created at time `c` with
  interval `i` fires at `c + (k+1)*i` for `k = 0, 1, ...`, i.e. first
  after one full interval, never immediately.
-/

structure TelemetryDoc where
  device_id : Option String
  equipment_mapping : Option (List (String × String))
  current_hours : Option Int
  last_updated : Option String
  deriving DecidableEq, Repr

structure EquipmentRecord where
  equipmentNumber : String
  currentHours : Option Int
  lastIoTUpdate : Option String
  otherFields : List (String × String)
  deriving DecidableEq, Repr

inductive FetchOutcome where
  | networkError : FetchOutcome
  | httpError (status : Nat) : FetchOutcome
  | parseError : FetchOutcome
  | success (doc : TelemetryDoc) : FetchOutcome
  deriving DecidableEq, Repr

/-- `fetchIoTData`: the `try/catch` of the source converts every failing
outcome (network error, `!response.ok`, rejected `response.json()`) to
`null`; a successfully parsed document is returned as is, with no field
validation. -/
def fetchIoTData : FetchOutcome → Option TelemetryDoc
  | FetchOutcome.success doc => some doc
  | _ => none

/-- The body of the `forEach` in `updateEquipmentWithIoTData`: look the
record's `equipmentNumber` up in the mapping; update only when the
mapped device id is truthy (a non-empty string) and strictly equal to
the document's `device_id`. -/
def mergeRecord (doc : TelemetryDoc) (mapping : List (String × String))
    (e : EquipmentRecord) : EquipmentRecord :=
  match mapping.lookup e.equipmentNumber with
  | some deviceId =>
      if deviceId ≠ "" ∧ doc.device_id = some deviceId then
        { e with currentHours := doc.current_hours,
                 lastIoTUpdate := doc.last_updated }
      else e
  | none => e

/-- `updateEquipmentWithIoTData`: fetch, bail out unchanged when the
fetch yields `null` or the document has no truthy `equipment_mapping`,
otherwise update each record through `mergeRecord`. -/
def updateEquipmentWithIoTData (outcome : FetchOutcome)
    (equipmentData : List EquipmentRecord) : List EquipmentRecord :=
  match fetchIoTData outcome with
  | none => equipmentData
  | some doc =>
      match doc.equipment_mapping with
      | none => equipmentData
      | some mapping => equipmentData.map (mergeRecord doc mapping)

/-- `refreshIoTData`: logs and returns `await this.fetchIoTData()`. -/
def refreshIoTData (outcome : FetchOutcome) : Option TelemetryDoc :=
  fetchIoTData outcome

/-- JavaScript number subtraction where either side may be `NaN`. -/
def jsSub : Option Int → Option Int → Option Int
  | some a, some b => some (a - b)
  | some _, none => none
  | none, _ => none

/-- `Math.floor (x / d)` for integer `x` and positive integer `d` is
floor division; `NaN` propagates. -/
def jsFloorDiv : Option Int → Int → Option Int
  | some a, d => some (Int.fdiv a d)
  | none, _ => none

/-- JavaScript `%` (remainder, truncating, sign of the dividend);
`NaN` propagates. -/
def jsTMod : Option Int → Int → Option Int
  | some a, d => some (Int.tmod a d)
  | none, _ => none

/-- JavaScript `>` on numbers: any comparison with `NaN` is false. -/
def jsGt : Option Int → Int → Bool
  | some a, b => decide (b < a)
  | none, _ => false

/-- How a JavaScript number renders inside a template literal:
an integer renders in decimal, `NaN` renders as "NaN". -/
def jsNumToString : Option Int → String
  | some a => toString a
  | none => "NaN"

/-- `new Date(x)` for `x` the possibly-absent `last_updated` string:
`undefined` or an unparseable string gives an invalid date (time value
`NaN`), a parseable string gives its epoch milliseconds. -/
def jsDateOf (parse : String → Option Int) : Option String → Option Int
  | none => none
  | some s => parse s

structure StatusReport where
  status : String
  message : String
  lastUpdate : String
  /-- `none` when the JS object literal has no `deviceId` property at
  all; `some v` when the property is present with value `v`. -/
  deviceId : Option (Option String)
  /-- `none` when the JS object literal has no `currentHours` property
  at all; `some v` when the property is present with value `v`. -/
  currentHours : Option (Option Int)
  deriving DecidableEq, Repr

/-- The report returned when the fetch yields `null`. -/
def unavailableReport : StatusReport :=
  { status := "offline"
    message := "IoT data unavailable"
    lastUpdate := "Never"
    deviceId := none
    currentHours := none }

/-- `getIoTStatus`: fetch; on `null` return `unavailableReport`;
otherwise classify the elapsed whole minutes between `nowMs` and the
parsed `last_updated` through the two cascaded `if`s of the source. -/
def getIoTStatus (outcome : FetchOutcome) (parse : String → Option Int)
    (locale : Option Int → String) (nowMs : Int) : StatusReport :=
  match fetchIoTData outcome with
  | none => unavailableReport
  | some doc =>
      let lastUpdate : Option Int := jsDateOf parse doc.last_updated
      let timeDiff : Option Int := jsSub (some nowMs) lastUpdate
      let minutesDiff : Option Int := jsFloorDiv timeDiff (1000 * 60)
      let st0 : String × String :=
        ("online", "IoT data current (" ++ jsNumToString minutesDiff ++ " min ago)")
      let st1 : String × String :=
        if jsGt minutesDiff 60 then
          ("stale", "IoT data stale (" ++ jsNumToString (jsFloorDiv minutesDiff 60)
            ++ "h " ++ jsNumToString (jsTMod minutesDiff 60) ++ "m ago)")
        else st0
      let st2 : String × String :=
        if jsGt minutesDiff 1440 then ("offline", "IoT data very old (>24h)")
        else st1
      { status := st2.1
        message := st2.2
        lastUpdate := locale lastUpdate
        deviceId := some doc.device_id
        currentHours := some doc.current_hours }

structure Timer where
  id : Nat
  interval : Nat
  createdAt : Nat
  deriving DecidableEq, Repr

/-- The host's timer table: ids handed out by `setInterval` and the
interval timers currently active. -/
structure TimerEnv where
  nextId : Nat
  time : Nat
  active : List Timer
  deriving DecidableEq, Repr

/-- `setInterval(cb, interval)`: allocates a fresh positive timer id and
registers a repeating timer created now. -/
def setInterval (env : TimerEnv) (interval : Nat) : Nat × TimerEnv :=
  let tid := env.nextId + 1
  (tid, { env with nextId := tid,
                   active := env.active ++ [⟨tid, interval, env.time⟩] })

/-- `clearInterval(tid)`: deactivates the timer with that id. -/
def clearInterval (env : TimerEnv) (tid : Nat) : TimerEnv :=
  { env with active := env.active.filter (fun t => t.id ≠ tid) }

/-- The `k`-th time (0-based) a repeating timer fires: one full interval
after creation, then every interval. -/
def firingTime (t : Timer) (k : Nat) : Nat :=
  t.createdAt + (k + 1) * t.interval

/-- The scheduler invokes the callback registered under `tid` at time
`m` iff some active timer with that id has `m` among its firing times. -/
def firesAt (env : TimerEnv) (tid : Nat) (m : Nat) : Prop :=
  ∃ t ∈ env.active, t.id = tid ∧ ∃ k, firingTime t k = m

/-- The mutable instance state of `IoTIntegration`. -/
structure ClientState where
  iotDataFile : String
  updateInterval : Nat
  autoUpdateEnabled : Bool
  updateTimer : Option Nat
  deriving DecidableEq, Repr

/-- `new IoTIntegration()`. -/
def IoTIntegration.new : ClientState :=
  { iotDataFile := "iot_data.json"
    updateInterval := 30000
    autoUpdateEnabled := false
    updateTimer := none }

/-- `startAutoUpdate(callback)`: early return when already enabled,
otherwise set the flag and store the `setInterval` handle. -/
def startAutoUpdate (s : ClientState) (env : TimerEnv) :
    ClientState × TimerEnv :=
  if s.autoUpdateEnabled then (s, env)
  else
    let p := setInterval env s.updateInterval
    ({ s with autoUpdateEnabled := true, updateTimer := some p.1 }, p.2)

/-- `stopAutoUpdate()`: when a (truthy) timer handle is stored, clear
the interval, null the handle and drop the flag; otherwise do nothing. -/
def stopAutoUpdate (s : ClientState) (env : TimerEnv) :
    ClientState × TimerEnv :=
  match s.updateTimer with
  | some tid =>
      ({ s with updateTimer := none, autoUpdateEnabled := false },
       clearInterval env tid)
  | none => (s, env)

/-- A parsed document carries all four fields the spec calls required. -/
def hasRequiredFields (d : TelemetryDoc) : Prop :=
  d.device_id.isSome = true ∧ d.equipment_mapping.isSome = true ∧
  d.current_hours.isSome = true ∧ d.last_updated.isSome = true

instance (d : TelemetryDoc) : Decidable (hasRequiredFields d) := by
  unfold hasRequiredFields
  infer_instance

/-- C3: if the fetch yields the absence value, or the fetched document
lacks an `equipment_mapping`, then `updateEquipmentWithIoTData` returns
the input sequence with every record and every field unchanged. -/
theorem merge_unchanged_without_mapping (outcome : FetchOutcome)
    (equipmentData : List EquipmentRecord)
    (h : fetchIoTData outcome = none ∨
      ∃ doc, fetchIoTData outcome = some doc ∧ doc.equipment_mapping = none) :
    updateEquipmentWithIoTData outcome equipmentData = equipmentData := by
  rcases h with h | ⟨doc, hf, hm⟩
  · simp [updateEquipmentWithIoTData, h]
  · simp [updateEquipmentWithIoTData, hf, hm]

theorem merge_unchanged_without_mapping_witness :
    updateEquipmentWithIoTData FetchOutcome.networkError
      [⟨"EXC-100", none, none, []⟩] = [⟨"EXC-100", none, none, []⟩] :=
  merge_unchanged_without_mapping FetchOutcome.networkError
    [⟨"EXC-100", none, none, []⟩] (Or.inl rfl)

/-- C4: every failing retrieval outcome (network error, non-ok HTTP
response, malformed JSON) is absorbed by `fetchIoTData`, which returns
the absence value, and the absence is handled without any raised
failure by `updateEquipmentWithIoTData`, `getIoTStatus` and
`refreshIoTData` (each is a total function producing its documented
fallback value). -/
theorem fetch_failure_absorbed (outcome : FetchOutcome)
    (h : outcome = FetchOutcome.networkError ∨
      (∃ st, outcome = FetchOutcome.httpError st) ∨
      outcome = FetchOutcome.parseError) :
    fetchIoTData outcome = none ∧
    (∀ eqd, updateEquipmentWithIoTData outcome eqd = eqd) ∧
    (∀ parse locale nowMs,
      getIoTStatus outcome parse locale nowMs = unavailableReport) ∧
    refreshIoTData outcome = none := by
  rcases h with h | ⟨st, h⟩ | h <;> subst h <;>
    exact ⟨rfl, fun _ => rfl, fun _ _ _ => rfl, rfl⟩

theorem fetch_failure_absorbed_witness :
    fetchIoTData (FetchOutcome.httpError 404) = none ∧
    updateEquipmentWithIoTData (FetchOutcome.httpError 404)
      [⟨"EXC-100", none, none, []⟩] = [⟨"EXC-100", none, none, []⟩] ∧
    getIoTStatus (FetchOutcome.httpError 404) (fun _ => none)
      (fun _ => "x") 0 = unavailableReport ∧
    refreshIoTData (FetchOutcome.httpError 404) = none := by
  have h := fetch_failure_absorbed (FetchOutcome.httpError 404)
    (Or.inr (Or.inl ⟨404, rfl⟩))
  exact ⟨h.1, h.2.1 _, h.2.2.1 _ _ _, h.2.2.2⟩

/-- C6: whenever the fetch yields the absence value, `getIoTStatus`
returns exactly status "offline", message "IoT data unavailable",
lastUpdate "Never", with no `deviceId` and no `currentHours` fields. -/
theorem status_unavailable (outcome : FetchOutcome)
    (h : fetchIoTData outcome = none)
    (parse : String → Option Int) (locale : Option Int → String)
    (nowMs : Int) :
    getIoTStatus outcome parse locale nowMs =
      { status := "offline", message := "IoT data unavailable",
        lastUpdate := "Never", deviceId := none, currentHours := none } := by
  simp [getIoTStatus, h, unavailableReport]

theorem status_unavailable_witness :
    getIoTStatus FetchOutcome.networkError (fun _ => none) (fun _ => "x") 0 =
      { status := "offline", message := "IoT data unavailable",
        lastUpdate := "Never", deviceId := none, currentHours := none } :=
  status_unavailable FetchOutcome.networkError rfl (fun _ => none)
    (fun _ => "x") 0

/-- C9: `refreshIoTData` returns exactly what `fetchIoTData` returns on
every retrieval outcome. -/
theorem refresh_equals_fetch :
    ∀ outcome : FetchOutcome, refreshIoTData outcome = fetchIoTData outcome :=
  fun _ => rfl

/-- C5 (counterexample): a successful retrieval whose JSON parses to an
object with none of the required fields is returned as is by
`fetchIoTData` — neither the absence value nor a fully-parsed document. -/
theorem fetch_no_validation_counterexample :
    fetchIoTData (FetchOutcome.success ⟨none, none, none, none⟩) =
      some ⟨none, none, none, none⟩ ∧
    ¬ hasRequiredFields ⟨none, none, none, none⟩ := by
  exact ⟨rfl, by decide⟩

/-- C5 (amended): on a successful retrieval `fetchIoTData` returns the
parsed document exactly as parsed, with no required-field validation,
so the result can silently lack required fields. -/
theorem fetch_returns_parsed_unvalidated :
    (∀ doc, fetchIoTData (FetchOutcome.success doc) = some doc) ∧
    (∃ d, fetchIoTData (FetchOutcome.success d) = some d ∧
      ¬ hasRequiredFields d) :=
  ⟨fun _ => rfl, ⟨⟨none, none, none, none⟩, rfl, by decide⟩⟩

/-- C2: for a document whose `last_updated` parses, `getIoTStatus`
classifies the floored elapsed minutes `m` between now and
`last_updated` as a cascade: `m ≤ 60` gives "online" with the elapsed
minutes in the message; `60 < m ≤ 1440` gives "stale" with `m` div 60
hours and `m` mod 60 minutes in the message; `1440 < m` gives "offline"
with the fixed very-old message, overriding the stale classification;
a negative `m` takes the same arithmetic path as any `m ≤ 60`. -/
theorem status_classification (doc : TelemetryDoc) (s : String)
    (hs : doc.last_updated = some s)
    (parse : String → Option Int) (t : Int) (hp : parse s = some t)
    (locale : Option Int → String) (nowMs : Int) :
    (Int.fdiv (nowMs - t) (1000 * 60) ≤ 60 →
      (getIoTStatus (FetchOutcome.success doc) parse locale nowMs).status =
        "online" ∧
      (getIoTStatus (FetchOutcome.success doc) parse locale nowMs).message =
        "IoT data current (" ++ toString (Int.fdiv (nowMs - t) (1000 * 60))
          ++ " min ago)") ∧
    (60 < Int.fdiv (nowMs - t) (1000 * 60) →
      Int.fdiv (nowMs - t) (1000 * 60) ≤ 1440 →
      (getIoTStatus (FetchOutcome.success doc) parse locale nowMs).status =
        "stale" ∧
      (getIoTStatus (FetchOutcome.success doc) parse locale nowMs).message =
        "IoT data stale ("
          ++ toString (Int.fdiv (Int.fdiv (nowMs - t) (1000 * 60)) 60)
          ++ "h " ++ toString (Int.tmod (Int.fdiv (nowMs - t) (1000 * 60)) 60)
          ++ "m ago)") ∧
    (1440 < Int.fdiv (nowMs - t) (1000 * 60) →
      (getIoTStatus (FetchOutcome.success doc) parse locale nowMs).status =
        "offline" ∧
      (getIoTStatus (FetchOutcome.success doc) parse locale nowMs).message =
        "IoT data very old (>24h)") := by
  have e : (1000 : Int) * 60 = 60000 := by norm_num
  refine ⟨fun h => ?_, fun h h14 => ?_, fun h => ?_⟩
  · rw [e] at h
    have h1 : ¬ (60 < Int.fdiv (nowMs - t) 60000) := not_lt.mpr h
    have h2 : ¬ (1440 < Int.fdiv (nowMs - t) 60000) := by omega
    simp [getIoTStatus, fetchIoTData, hs, hp, jsDateOf, jsSub, jsFloorDiv,
      jsGt, jsNumToString, h1, h2]
  · rw [e] at h h14
    have h2 : ¬ (1440 < Int.fdiv (nowMs - t) 60000) := not_lt.mpr h14
    simp [getIoTStatus, fetchIoTData, hs, hp, jsDateOf, jsSub, jsFloorDiv,
      jsGt, jsNumToString, jsTMod, h, h2]
  · rw [e] at h
    simp [getIoTStatus, fetchIoTData, hs, hp, jsDateOf, jsSub, jsFloorDiv,
      jsGt, jsNumToString, h]

theorem status_classification_witness :
    Int.fdiv ((5400000 : Int) - 0) (1000 * 60) = 90 ∧
    (getIoTStatus
      (FetchOutcome.success ⟨some "dev-1", some [], some 10, some "ts"⟩)
      (fun _ => some 0) (fun _ => "L") 5400000).status = "stale" ∧
    (getIoTStatus
      (FetchOutcome.success ⟨some "dev-1", some [], some 10, some "ts"⟩)
      (fun _ => some 0) (fun _ => "L") 5400000).message =
      "IoT data stale (1h 30m ago)" := by
  have h := (status_classification ⟨some "dev-1", some [], some 10, some "ts"⟩
    "ts" rfl (fun _ => some 0) 0 rfl (fun _ => "L") 5400000).2.1
    (by decide) (by decide)
  exact ⟨by decide, h.1, by rw [h.2]; decide⟩

/-- C10: when `last_updated` is missing or does not parse as a
date-time, the elapsed-minutes value is NaN, both threshold
comparisons are false, and `getIoTStatus` reports status "online" with
the NaN value embedded in the message. -/
theorem status_unparseable_online (doc : TelemetryDoc)
    (parse : String → Option Int)
    (h : doc.last_updated = none ∨
      ∃ s, doc.last_updated = some s ∧ parse s = none)
    (locale : Option Int → String) (nowMs : Int) :
    (getIoTStatus (FetchOutcome.success doc) parse locale nowMs).status =
      "online" ∧
    (getIoTStatus (FetchOutcome.success doc) parse locale nowMs).message =
      "IoT data current (NaN min ago)" := by
  have hd : jsDateOf parse doc.last_updated = none := by
    rcases h with h | ⟨s, hs, hp⟩
    · rw [h]; rfl
    · rw [hs]; exact hp
  simp [getIoTStatus, fetchIoTData, hd, jsSub, jsFloorDiv, jsGt,
    jsNumToString]

theorem status_unparseable_online_witness :
    (getIoTStatus
      (FetchOutcome.success ⟨some "dev-1", some [], some 10, some "garbage"⟩)
      (fun _ => none) (fun _ => "L") 0).status = "online" ∧
    (getIoTStatus
      (FetchOutcome.success ⟨some "dev-1", some [], some 10, some "garbage"⟩)
      (fun _ => none) (fun _ => "L") 0).message =
      "IoT data current (NaN min ago)" :=
  status_unparseable_online ⟨some "dev-1", some [], some 10, some "garbage"⟩
    (fun _ => none) (Or.inr ⟨"garbage", rfl, rfl⟩) (fun _ => "L") 0

/-- C1 (counterexample): with the document's `device_id` the empty
string and the mapping sending "EXC-100" to the empty string, the
record's number IS a key of the mapping and its mapped identifier DOES
equal `device_id`, yet the merge leaves the record unchanged (so its
`currentHours` is not the document's `current_hours`): the source also
requires the mapped identifier to be truthy. -/
theorem merge_claim_counterexample :
    ([("EXC-100", "")].lookup "EXC-100" = some "" ∧
      (⟨some "", some [("EXC-100", "")], some 100, some "ts"⟩ :
        TelemetryDoc).device_id = some "") ∧
    updateEquipmentWithIoTData
      (FetchOutcome.success
        ⟨some "", some [("EXC-100", "")], some 100, some "ts"⟩)
      [⟨"EXC-100", none, none, []⟩] = [⟨"EXC-100", none, none, []⟩] ∧
    (⟨"EXC-100", none, none, []⟩ : EquipmentRecord).currentHours ≠
      (⟨some "", some [("EXC-100", "")], some 100, some "ts"⟩ :
        TelemetryDoc).current_hours := by
  decide

/-- C1 (amended): when the fetched document has an `equipment_mapping`,
the merge preserves the list length; a record whose `equipmentNumber`
maps to a non-empty (truthy) device identifier equal to the document's
`device_id` gets `currentHours` and `lastIoTUpdate` from the document
with every other field preserved; a record whose number is not a key,
or whose mapped identifier is empty or differs from `device_id`, is
completely unchanged. -/
theorem merge_updates_matching (doc : TelemetryDoc)
    (mapping : List (String × String))
    (hm : doc.equipment_mapping = some mapping)
    (eqd : List EquipmentRecord) :
    (updateEquipmentWithIoTData (FetchOutcome.success doc) eqd).length
      = eqd.length ∧
    ∀ (i : Nat) (hi : i < eqd.length)
      (hj : i <
        (updateEquipmentWithIoTData (FetchOutcome.success doc) eqd).length),
      ((∃ d, mapping.lookup (eqd.get ⟨i, hi⟩).equipmentNumber = some d ∧
          d ≠ "" ∧ doc.device_id = some d) →
        ((updateEquipmentWithIoTData (FetchOutcome.success doc) eqd).get
            ⟨i, hj⟩).currentHours = doc.current_hours ∧
        ((updateEquipmentWithIoTData (FetchOutcome.success doc) eqd).get
            ⟨i, hj⟩).lastIoTUpdate = doc.last_updated ∧
        ((updateEquipmentWithIoTData (FetchOutcome.success doc) eqd).get
            ⟨i, hj⟩).equipmentNumber = (eqd.get ⟨i, hi⟩).equipmentNumber ∧
        ((updateEquipmentWithIoTData (FetchOutcome.success doc) eqd).get
            ⟨i, hj⟩).otherFields = (eqd.get ⟨i, hi⟩).otherFields) ∧
      ((mapping.lookup (eqd.get ⟨i, hi⟩).equipmentNumber = none ∨
        ∃ d, mapping.lookup (eqd.get ⟨i, hi⟩).equipmentNumber = some d ∧
          (d = "" ∨ doc.device_id ≠ some d)) →
        (updateEquipmentWithIoTData (FetchOutcome.success doc) eqd).get
          ⟨i, hj⟩ = eqd.get ⟨i, hi⟩) := by
  have hres : updateEquipmentWithIoTData (FetchOutcome.success doc) eqd
      = eqd.map (mergeRecord doc mapping) := by
    simp [updateEquipmentWithIoTData, fetchIoTData, hm]
  constructor
  · rw [hres]; exact List.length_map _ _
  · intro i hi hj
    have hget : (updateEquipmentWithIoTData (FetchOutcome.success doc)
        eqd).get ⟨i, hj⟩ = mergeRecord doc mapping (eqd.get ⟨i, hi⟩) := by
      simp only [List.get_eq_getElem, hres, List.getElem_map]
    rw [hget]
    constructor
    · rintro ⟨d, hd, hne, hdev⟩
      simp only [List.get_eq_getElem] at hd
      simp [mergeRecord, hd, hne, hdev]
    · rintro (hd | ⟨d, hd, hce | hcd⟩)
      · simp only [List.get_eq_getElem] at hd
        simp [mergeRecord, hd]
      · subst hce
        simp only [List.get_eq_getElem] at hd
        simp [mergeRecord, hd]
      · simp only [List.get_eq_getElem] at hd
        simp [mergeRecord, hd, hcd]

theorem merge_updates_matching_witness :
    (updateEquipmentWithIoTData
        (FetchOutcome.success
          ⟨some "dev-1", some [("EXC-100", "dev-1")], some 250, some "ts"⟩)
        [⟨"EXC-100", none, none, []⟩]).length = 1 ∧
    ((updateEquipmentWithIoTData
        (FetchOutcome.success
          ⟨some "dev-1", some [("EXC-100", "dev-1")], some 250, some "ts"⟩)
        [⟨"EXC-100", none, none, []⟩]).get ⟨0, by decide⟩).currentHours =
      some 250 := by
  have h := merge_updates_matching
    ⟨some "dev-1", some [("EXC-100", "dev-1")], some 250, some "ts"⟩
    [("EXC-100", "dev-1")] rfl [⟨"EXC-100", none, none, []⟩]
  refine ⟨h.1, ?_⟩
  exact ((h.2 0 (by decide) (by decide)).1
    ⟨"dev-1", by decide, by decide, rfl⟩).1

/-- A well-formed timer table: every active timer carries an id the
host has already handed out. -/
def TimerEnv.wf (env : TimerEnv) : Prop :=
  ∀ t ∈ env.active, t.id ≤ env.nextId

/-- C7: from a disabled client, `startAutoUpdate` marks the client
enabled and registers exactly one repeating timer with the client's
poll interval (default 30000 ms on a fresh instance), whose callback
invocations happen at one interval, two intervals, ... after creation
and never at creation time itself; a second consecutive call is a
no-op, changing neither the client state nor the timer table. -/
theorem startAutoUpdate_spec (s : ClientState) (env : TimerEnv)
    (hdis : s.autoUpdateEnabled = false) (hwf : TimerEnv.wf env) :
    startAutoUpdate (startAutoUpdate s env).1 (startAutoUpdate s env).2
      = startAutoUpdate s env ∧
    (startAutoUpdate s env).1.autoUpdateEnabled = true ∧
    IoTIntegration.new.updateInterval = 30000 ∧
    ∃ t : Timer,
      (startAutoUpdate s env).2.active = env.active ++ [t] ∧
      (startAutoUpdate s env).1.updateTimer = some t.id ∧
      t.interval = s.updateInterval ∧
      (∀ m : Nat, firesAt (startAutoUpdate s env).2 t.id m ↔
        ∃ k : Nat, m = env.time + (k + 1) * s.updateInterval) ∧
      (0 < s.updateInterval →
        ¬ firesAt (startAutoUpdate s env).2 t.id env.time) := by
  have h1 : startAutoUpdate s env =
      ({ s with autoUpdateEnabled := true,
                updateTimer := some (env.nextId + 1) },
       { env with nextId := env.nextId + 1,
                  active := env.active ++
                    [⟨env.nextId + 1, s.updateInterval, env.time⟩] }) := by
    simp [startAutoUpdate, hdis, setInterval]
  have hfire : ∀ m : Nat,
      firesAt (startAutoUpdate s env).2 (env.nextId + 1) m ↔
      ∃ k : Nat, m = env.time + (k + 1) * s.updateInterval := by
    intro m
    rw [h1]
    constructor
    · rintro ⟨u, humem, huid, k, hk⟩
      rcases List.mem_append.mp humem with hmem | hmem
      · exact absurd huid (by have h2 := hwf u hmem; omega)
      · have he : u = ⟨env.nextId + 1, s.updateInterval, env.time⟩ :=
          List.mem_singleton.mp hmem
        subst he
        exact ⟨k, hk.symm⟩
    · rintro ⟨k, hk⟩
      exact ⟨⟨env.nextId + 1, s.updateInterval, env.time⟩,
        List.mem_append.mpr (Or.inr (List.mem_singleton.mpr rfl)),
        rfl, k, hk.symm⟩
  refine ⟨?_, ?_, rfl,
    ⟨env.nextId + 1, s.updateInterval, env.time⟩, ?_, ?_, rfl, hfire, ?_⟩
  · rw [h1]
    simp [startAutoUpdate]
  · rw [h1]
  · rw [h1]
  · rw [h1]
  · intro hpos hcontra
    rcases (hfire env.time).mp hcontra with ⟨k, hk⟩
    have hzero : (k + 1) * s.updateInterval = 0 := by
      generalize hg : (k + 1) * s.updateInterval = x at hk
      omega
    rcases Nat.mul_eq_zero.mp hzero with h0 | h0
    · exact absurd h0 (Nat.succ_ne_zero k)
    · omega

theorem startAutoUpdate_spec_witness :
    (startAutoUpdate IoTIntegration.new ⟨0, 0, []⟩).1.autoUpdateEnabled
      = true :=
  (startAutoUpdate_spec IoTIntegration.new ⟨0, 0, []⟩ rfl
    (fun t ht => absurd ht (List.not_mem_nil t))).2.1

/-- C8: when a timer handle is stored, `stopAutoUpdate` clears the
handle, marks the client disabled and removes the timer from the timer
table, so no further callback invocation under that id can occur; when
no handle is stored (in particular when polling was never started) it
returns client and timer table completely unchanged. -/
theorem stopAutoUpdate_spec (s : ClientState) (env : TimerEnv) :
    (∀ tid, s.updateTimer = some tid →
      (stopAutoUpdate s env).1.updateTimer = none ∧
      (stopAutoUpdate s env).1.autoUpdateEnabled = false ∧
      (∀ m, ¬ firesAt (stopAutoUpdate s env).2 tid m)) ∧
    (s.updateTimer = none → stopAutoUpdate s env = (s, env)) := by
  constructor
  · intro tid htid
    have h1 : stopAutoUpdate s env =
        ({ s with updateTimer := none, autoUpdateEnabled := false },
         clearInterval env tid) := by
      simp [stopAutoUpdate, htid]
    rw [h1]
    refine ⟨rfl, rfl, ?_⟩
    rintro m ⟨u, humem, huid, -⟩
    have humem2 : u ∈ env.active.filter (fun v => v.id ≠ tid) := humem
    have hne : ¬ (u.id = tid) := by
      simpa using (List.mem_filter.mp humem2).2
    exact hne huid
  · intro h
    simp [stopAutoUpdate, h]

theorem stopAutoUpdate_spec_witness :
    (stopAutoUpdate
      { iotDataFile := "iot_data.json", updateInterval := 30000,
        autoUpdateEnabled := true, updateTimer := some 1 }
      ⟨1, 0, [⟨1, 30000, 0⟩]⟩).1.autoUpdateEnabled = false :=
  ((stopAutoUpdate_spec
      { iotDataFile := "iot_data.json", updateInterval := 30000,
        autoUpdateEnabled := true, updateTimer := some 1 }
      ⟨1, 0, [⟨1, 30000, 0⟩]⟩).1 1 rfl).2.1
